import Mathlib

/-
  Verification of the pilot data-movement pipeline and communication
  manager (src/pilot/control/data.py, src/pilot/util/auxiliary.py,
  src/pilot/eventservice/communicationmanager/communicationmanager.py)
  as a shallow embedding in Lean 4.
-/

namespace Pilot

/-- Whether `needle` occurs character-wise at the head of `hay`. Helper for
the embedding of Python's substring test on strings. -/
def leadsWith : List Char → List Char → Bool
  | [], _ => true
  | _ :: _, [] => false
  | a :: as, b :: bs => a == b && leadsWith as bs

/-- Whether `needle` occurs as a contiguous run anywhere in `hay`. -/
def hasRun (needle : List Char) : List Char → Bool
  | [] => leadsWith needle []
  | c :: rest => leadsWith needle (c :: rest) || hasRun needle rest

/-- Python's `needle in hay` on strings: substring containment. This is the
semantics of `outfile not in job['outFiles']` in `_stage_out_all`
(src/pilot/control/data.py line 418), where `job['outFiles']` is a
comma-joined string. -/
def pyInStr (needle hay : String) : Bool := hasRun needle.toList hay.toList

/-- Modelled from the spec: the closed error taxonomy of spec section 7. The
numeric constants live in `pilot.common.errorcodes`, which is not under
src/. -/
inductive ErrCode where
  | stage_in_failed
  | stage_out_failed
  | communication_failure
  | unknown_exception
deriving DecidableEq, Repr

/-- Modelled from the spec: the diagnostic message attached with each error
kind (spec section 7; `ErrorCodes` is not under src/). -/
def errDiag : ErrCode → String
  | .stage_in_failed => "stage-in failed"
  | .stage_out_failed => "stage-out failed"
  | .communication_failure => "communication failure"
  | .unknown_exception => "unknown exception"

/-- Modelled from the spec: `ErrorCodes.add_error_code` accumulates the
kind's code and message onto the job's diagnostic lists (spec section 3,
"accumulated error code list and error message list"; the helper is not
under src/). -/
def add_error_code (codes : List ErrCode) (diags : List String) (e : ErrCode) :
    List ErrCode × List String :=
  (codes ++ [e], diags ++ [errDiag e])

/-- Per-file result entry accumulated into `job['fileinfodict']`
(src/pilot/control/data.py lines 427-431). -/
structure FileInfo where
  guid : String
  fsize : Int
  adler32 : String
  surl : String
deriving DecidableEq, Repr

/-- The job record flowing through the data pipeline: the attributes of the
Python job mapping that src/pilot/control/data.py and
src/pilot/util/auxiliary.py read or write. `metaData` is the optional job
report; each entry stands for `f['subFiles'][0]` of one output entry of
`job['metaData']['files']['output']` (name, file_guid, file_size), which is
all `_stage_out_all` reads of it (lines 404-408). -/
structure Job where
  pandaID : Int
  state : String
  stageout : String
  inFiles : String
  outFiles : String
  scopeOut : String
  scopeLog : String
  logFile : String
  logGUID : String
  metaData : Option (List (String × String × Int))
  pilotErrorCodes : List ErrCode
  pilotErrorDiags : List String
  exitCode : Option Int
  transExitCode : Option Int
  fileinfodict : Option (List (String × FileInfo))
deriving DecidableEq, Repr

/-- An entry of the `outputs` dictionary built by `_stage_out_all`
(src/pilot/control/data.py lines 405-412): scope, name, guid and byte size
of one file to transfer. -/
structure Descriptor where
  scope : String
  name : String
  guid : String
  bytes : Int
deriving DecidableEq, Repr

/-- The two fields `_stage_out_all` extracts from the transfer tool's
`rucio_upload.json` summary for the key `scope:name` (lines 423-425). -/
structure Summary where
  pfn : String
  adler32 : String
deriving DecidableEq, Repr

/-- Insertion into a Python dict rendered as an association list: an
existing key keeps its position and its value is overwritten, a new key is
appended. -/
def dictUpsert {α : Type} (m : List (String × α)) (k : String) (v : α) :
    List (String × α) :=
  if m.any (fun p => p.1 == k) then
    m.map (fun p => if p.1 == k then (k, v) else p)
  else
    m ++ [(k, v)]

/-- `prepare_log` (src/pilot/control/data.py lines 297-317): the descriptor
returned for the log tarball. The tarball construction itself is
filesystem work; its final on-disk size enters the embedding as the
`tarSize` parameter (the `os.stat(...).st_size` of line 317). -/
def prepare_log (job : Job) (tarSize : Int) : Descriptor :=
  { scope := job.scopeLog, name := job.logFile, guid := job.logGUID, bytes := tarSize }

/-- The outcome of one `_stage_out` invocation (src/pilot/control/data.py
lines 320-384), abstracted over the child process and the filesystem: for a
given descriptor, `none` when no summary is obtained (spawn failure,
cancellation with no exit code, or missing `rucio_upload.json` after exit)
and `some s` with the summary entry for the key `scope:name` otherwise. -/
def StageOutEnv : Type := Descriptor → Option Summary

/-- The `outputs` dictionary of `_stage_out_all` (src/pilot/control/data.py
lines 397-412): for `stageout == "log"` only the log entry; otherwise the
per-output descriptors from the job report (or none, with a warning, when
the report is absent), keyed by file name, followed by the log descriptor
keyed by the string `scopeLog:logFile`. -/
def outputsOf (job : Job) (tarSize : Int) : List (String × Descriptor) :=
  let base : List (String × Descriptor) :=
    if job.stageout == "log" then []
    else
      match job.metaData with
      | some fs =>
          fs.foldl (fun m sf =>
            dictUpsert m sf.1
              { scope := job.scopeOut, name := sf.1, guid := sf.2.1, bytes := sf.2.2 }) []
      | none => []
  dictUpsert base (job.scopeLog ++ ":" ++ job.logFile) (prepare_log job tarSize)

/-- The transfer loop of `_stage_out_all` (src/pilot/control/data.py lines
417-433): iterate over the `outputs` dictionary; a key that is not a
substring of `job['outFiles']` is skipped; otherwise `_stage_out` is run
(recorded in the third component, the attempted descriptors); a summary
feeds the file-info dictionary, `none` sets the `failed` flag and the loop
continues. Returns (fileinfodict, failed, attempts). -/
def stageOutLoop (env : StageOutEnv) (outFiles : String) :
    List (String × Descriptor) → List (String × FileInfo) → Bool →
    List (String × FileInfo) × Bool × List Descriptor
  | [], fid, failed => (fid, failed, [])
  | (k, d) :: rest, fid, failed =>
    if pyInStr k outFiles then
      match env d with
      | some s =>
          let fid' := dictUpsert fid d.name
            { guid := d.guid, fsize := d.bytes, adler32 := s.adler32, surl := s.pfn }
          let r := stageOutLoop env outFiles rest fid' failed
          (r.1, r.2.1, d :: r.2.2)
      | none =>
          let r := stageOutLoop env outFiles rest fid true
          (r.1, r.2.1, d :: r.2.2)
    else
      stageOutLoop env outFiles rest fid failed

/-- Result of `_stage_out_all`: the boolean return value, the job as
mutated, and the descriptors for which the transfer child was actually
launched. -/
structure StageOutAllResult where
  ok : Bool
  job : Job
  attempts : List Descriptor
deriving Repr

/-- `_stage_out_all` (src/pilot/control/data.py lines 387-451): build the
outputs dictionary, run the transfer loop, and on any failure append
`STAGEOUTFAILED` to the error lists and set the state to "failed"
(returning False), otherwise store the file-info dictionary, set the state
to "finished" and return True. -/
def stage_out_all (env : StageOutEnv) (tarSize : Int) (job : Job) :
    StageOutAllResult :=
  let outs := outputsOf job tarSize
  let r := stageOutLoop env job.outFiles outs [] false
  if r.2.1 then
    let cd := add_error_code job.pilotErrorCodes job.pilotErrorDiags .stage_out_failed
    { ok := false
      job := { job with pilotErrorCodes := cd.1, pilotErrorDiags := cd.2, state := "failed" }
      attempts := r.2.2 }
  else
    { ok := true
      job := { job with fileinfodict := some r.1, state := "finished" }
      attempts := r.2.2 }

/-- Destination queues of the stage-in worker. -/
inductive DataInRoute where
  | finished_data_in
  | failed_data_in
deriving DecidableEq, Repr

/-- One iteration body of `copytool_in` on a dequeued job
(src/pilot/control/data.py lines 259-271), abstracted over the stage-in
transfer outcome `ok` (the boolean returned by `_stage_in`): on success the
job goes to `finished_data_in` unchanged; on failure the job goes to
`failed_data_in` with `STAGEINFAILED` appended to its error lists and state
set to "failed". -/
def copytool_in_step (ok : Bool) (job : Job) : Job × DataInRoute :=
  if ok then
    (job, .finished_data_in)
  else
    let cd := add_error_code job.pilotErrorCodes job.pilotErrorDiags .stage_in_failed
    ({ job with pilotErrorCodes := cd.1, pilotErrorDiags := cd.2, state := "failed" },
     .failed_data_in)

/-- Destination queues of the queue monitor. -/
inductive JobRoute where
  | finished_jobs
  | failed_jobs
  | failed_data_out
deriving DecidableEq, Repr

/-- The `failed_data_in` branch of `queue_monitoring`
(src/pilot/control/data.py lines 475-483): set `job['stageout'] = "log"`,
run `_stage_out_all`; on failure route to `failed_data_out`, on success
route to `failed_jobs`. -/
def monitor_failed_data_in (env : StageOutEnv) (tarSize : Int) (job : Job) :
    Job × JobRoute :=
  let r := stage_out_all env tarSize { job with stageout := "log" }
  if r.ok then (r.job, .failed_jobs) else (r.job, .failed_data_out)

/-- The `finished_data_out` branch of `queue_monitoring`
(src/pilot/control/data.py lines 491-502): `exit_code` is `job['exitCode']`
when present, else 0; the job goes to `finished_jobs` when
`'transExitCode' in job and job['transExitCode'] == 0` and `exit_code == 0`,
else to `failed_jobs`. -/
def monitor_finished_data_out (job : Job) : JobRoute :=
  let exit_code : Int :=
    match job.exitCode with
    | some c => c
    | none => 0
  if (job.transExitCode == some 0) && (exit_code == 0) then
    .finished_jobs
  else
    .failed_jobs

/-- `set_pilot_state` (src/pilot/util/auxiliary.py lines 304-321): the
`PILOT_JOB_STATE` environment variable is always set to `state` (second
component); `job.state` is updated only when the job exists and its state is
not "failed". -/
def set_pilot_state (job : Option Job) (state : String) : Option Job × String :=
  (match job with
   | some j => some (if j.state != "failed" then { j with state := state } else j)
   | none => none,
   state)

/-- One observed tick of the supervision loop of `_call`
(src/pilot/control/data.py lines 64-82): either the graceful-stop signal is
found set during the ten 100 ms sub-ticks, or the sub-ticks all pass and
`process.poll()` returns the given value (`none` = still running). -/
inductive Tick where
  | cancel
  | poll (r : Option Int)
deriving DecidableEq, Repr

/-- The supervision loop of `_call` over the trace of observed ticks:
`some ec` when the loop breaks with final `exit_code = ec` (`none` on the
cancellation path, where the child is terminated and killed before any
successful poll), `none` when the trace ends without the loop breaking. -/
def superviseLoop : List Tick → Option (Option Int)
  | [] => none
  | .cancel :: _ => some none
  | .poll (some c) :: _ => some (some c)
  | .poll none :: rest => superviseLoop rest

/-- `_call` (src/pilot/control/data.py lines 49-92), abstracted over the
child process: `spawn = none` means `subprocess.Popen` raised (return False
with no exit code observed); otherwise the supervision loop runs over the
tick trace and the function returns `(exit_code == 0, exit_code)`. The
result is `none` when the trace ends without the loop breaking. -/
def call (spawn : Option (List Tick)) : Option (Bool × Option Int) :=
  match spawn with
  | none => some (false, none)
  | some ticks =>
    (superviseLoop ticks).map (fun ec => (ec == some (0 : Int), ec))

/-! ## Communication manager
(src/pilot/eventservice/communicationmanager/communicationmanager.py) -/

/-- A Python value sitting in a response's `status` slot: `None`, an
integer, or a boolean. -/
inductive PStatus where
  | noneS
  | int (n : Int)
  | bool (b : Bool)
deriving DecidableEq, Repr

/-- Python `status == 0` as used by the pre-check test
`pre_check_resp.status == 0` (communicationmanager.py line 446): `None == 0`
is False, `False == 0` is True. -/
def pyEqZero : PStatus → Bool
  | .noneS => false
  | .int n => n == 0
  | .bool b => b == false

/-- Python `status is False` as used by the dispatch loop
(communicationmanager.py line 458) and the synchronous waiters: identity
with the `False` object. -/
def pyIsFalse : PStatus → Bool
  | .bool false => true
  | _ => false

/-- An exception value carried in a response. -/
inductive PyExc where
  | communicationFailure (msg : String)
deriving DecidableEq, Repr

/-- `CommunicationResponse`: status, content and exception slots
(communicationmanager.py lines 39-61). Content is kept opaque. -/
structure Response where
  status : PStatus
  content : Option String
  exc : Option PyExc
deriving DecidableEq, Repr

/-- `CommunicationRequest` as the dispatch loop and the public operations
touch it: the optional `post_hook` (presence only — the callback itself is
opaque), the mutable `response` slot, and the `abort` flag
(communicationmanager.py lines 82-123). -/
structure Request where
  post_hook : Bool
  response : Option Response
  abort : Bool
deriving DecidableEq, Repr

/-- The named queues of `CommunicationManager.__init__`
(communicationmanager.py lines 160-167). -/
inductive QName where
  | request_get_jobs
  | update_jobs
  | request_get_events
  | update_events
  | processing_get_jobs
  | processing_update_jobs
  | processing_get_events
  | processing_update_events
deriving DecidableEq, Repr

/-- `self.queue_limits` (communicationmanager.py lines 168-175): inbound
queues unbounded, processing queues limited to 1. -/
def queue_limit : QName → Option Nat
  | .request_get_jobs => none
  | .update_jobs => none
  | .request_get_events => none
  | .update_events => none
  | .processing_get_jobs => some 1
  | .processing_update_jobs => some 1
  | .processing_get_events => some 1
  | .processing_update_events => some 1

/-- The manager's mutable state: the eight queues and the stop event. -/
structure MState where
  request_get_jobs : List Request
  update_jobs : List Request
  request_get_events : List Request
  update_events : List Request
  processing_get_jobs : List Request
  processing_update_jobs : List Request
  processing_get_events : List Request
  processing_update_events : List Request
  stop : Bool

/-- Contents of the named queue. -/
def getQ (s : MState) : QName → List Request
  | .request_get_jobs => s.request_get_jobs
  | .update_jobs => s.update_jobs
  | .request_get_events => s.request_get_events
  | .update_events => s.update_events
  | .processing_get_jobs => s.processing_get_jobs
  | .processing_update_jobs => s.processing_update_jobs
  | .processing_get_events => s.processing_get_events
  | .processing_update_events => s.processing_update_events

/-- Replace the contents of the named queue. -/
def setQ (s : MState) : QName → List Request → MState
  | .request_get_jobs, l => { s with request_get_jobs := l }
  | .update_jobs, l => { s with update_jobs := l }
  | .request_get_events, l => { s with request_get_events := l }
  | .update_events, l => { s with update_events := l }
  | .processing_get_jobs, l => { s with processing_get_jobs := l }
  | .processing_update_jobs, l => { s with processing_update_jobs := l }
  | .processing_get_events, l => { s with processing_get_events := l }
  | .processing_update_events, l => { s with processing_update_events := l }

/-- Enqueue a request (Python `Queue.put`). -/
def putQ (s : MState) (q : QName) (r : Request) : MState :=
  setQ s q (getQ s q ++ [r])

/-- One entry of the processor table: its source queue, optional next
(in-flight) queue, and the `process_req_post_hook` bit
(communicationmanager.py lines 402-426). The plugin's pre-check and handler
are parameters of the dispatch functions. -/
structure ProcEntry where
  src : QName
  next_queue : Option QName
  process_req_post_hook : Bool
deriving DecidableEq, Repr

/-- The processor table, in the iteration order of
`CommunicationManager.get_processor` / `run` (communicationmanager.py lines
402-426). -/
def processorTable : List ProcEntry :=
  [ { src := .request_get_jobs, next_queue := some .processing_get_jobs,
      process_req_post_hook := false },
    { src := .request_get_events, next_queue := some .processing_get_events,
      process_req_post_hook := false },
    { src := .update_jobs, next_queue := none, process_req_post_hook := true },
    { src := .update_events, next_queue := none, process_req_post_hook := true },
    { src := .processing_get_jobs, next_queue := none, process_req_post_hook := true },
    { src := .processing_get_events, next_queue := none, process_req_post_hook := true } ]

/-- `CommunicationManager.can_process_request` (communicationmanager.py
lines 369-390): the source queue must be non-empty, and either there is no
next queue, or its limit is `None`, or its current size is strictly below
the limit. -/
def can_process_request (s : MState) (e : ProcEntry) : Bool :=
  if (getQ s e.src).isEmpty then false
  else
    match e.next_queue with
    | none => true
    | some nq =>
      match queue_limit nq with
      | none => true
      | some lim => decide ((getQ s nq).length < lim)

/-- The response attached to a request drained during shutdown
(communicationmanager.py lines 440-443): status `None`, no content, a
`CommunicationFailure` exception. -/
def commFailureResp : Response :=
  { status := .noneS, content := none,
    exc := some (.communicationFailure "Communication manager is stopping, abort this request") }

/-- A drained request after the shutdown branch of the dispatch loop
(communicationmanager.py lines 437-443): `abort` set and the
communication-failure response attached. -/
def abortReq (r : Request) : Request :=
  { r with abort := true, response := some commFailureResp }

/-- What one processor-table entry produced in a dispatch pass: the new
manager state, whether a request was handled (`has_req`), the responses the
request's post-hook was invoked with, and the requests whose `response`
slot was set (terminal delivery or abort). -/
structure StepOut where
  state : MState
  hasReq : Bool
  hooks : List Response
  done : List Request

/-- The body of the dispatch loop for one processor-table entry
(communicationmanager.py lines 434-468), with the plugin's pre-check
response and handler as parameters. On stop, the source queue is drained
with every request aborted. Otherwise, when `can_process_request` holds and
the pre-check status equals 0, one request is dequeued and handled: a
response whose status is `False` is attached to the request with no
post-hook call; otherwise the request moves to the next queue (if any) or
receives the response, and the post-hook is invoked when the entry's bit
and the request's hook are both present. -/
def processEntry (pre : Response) (handler : Request → Response)
    (s : MState) (e : ProcEntry) : StepOut :=
  if s.stop then
    { state := setQ s e.src [], hasReq := false, hooks := [],
      done := (getQ s e.src).map abortReq }
  else if can_process_request s e then
    if pyEqZero pre.status then
      match getQ s e.src with
      | [] => { state := s, hasReq := false, hooks := [], done := [] }
      | req :: rest =>
        let s1 := setQ s e.src rest
        let res := handler req
        if pyIsFalse res.status then
          { state := s1, hasReq := true, hooks := [],
            done := [{ req with response := some res }] }
        else
          let hooks := if e.process_req_post_hook && req.post_hook then [res] else []
          match e.next_queue with
          | some nq => { state := putQ s1 nq req, hasReq := true, hooks := hooks, done := [] }
          | none =>
            { state := s1, hasReq := true, hooks := hooks,
              done := [{ req with response := some res }] }
    else { state := s, hasReq := false, hooks := [], done := [] }
  else { state := s, hasReq := false, hooks := [], done := [] }

/-- One full pass of the dispatch loop over the processor table
(communicationmanager.py lines 432-468), threading the state and collecting
`has_req`, hook invocations and delivered requests. -/
def runPass (pre : ProcEntry → Response) (handler : ProcEntry → Request → Response)
    (s : MState) : StepOut :=
  processorTable.foldl
    (fun acc e =>
      let o := processEntry (pre e) (handler e) acc.state e
      { state := o.state, hasReq := acc.hasReq || o.hasReq,
        hooks := acc.hooks ++ o.hooks, done := acc.done ++ o.done })
    { state := s, hasReq := false, hooks := [], done := [] }

/-- A freshly constructed `CommunicationRequest`: empty response slot,
`abort = False` (communicationmanager.py lines 96-123). -/
def newRequest (ph : Bool) : Request :=
  { post_hook := ph, response := none, abort := false }

/-- What a public manager operation did: the resulting state, the queue a
new request was enqueued to (`none` when no request was constructed), and
whether a `CommunicationFailure` was raised to the caller. -/
structure CallOut where
  state : MState
  enq : Option QName
  raised : Bool

/-- `CommunicationManager.get_jobs` up to its return or the start of its
synchronous wait (communicationmanager.py lines 194-223): on stop, return
`None` at once; otherwise construct a request and enqueue it on
`request_get_jobs`. -/
def get_jobs_call (s : MState) (ph : Bool) : CallOut :=
  if s.stop then { state := s, enq := none, raised := false }
  else
    { state := putQ s .request_get_jobs (newRequest ph),
      enq := some .request_get_jobs, raised := false }

/-- `CommunicationManager.update_jobs` up to its return or the start of its
synchronous wait (communicationmanager.py lines 234-255). -/
def update_jobs_call (s : MState) (ph : Bool) : CallOut :=
  if s.stop then { state := s, enq := none, raised := false }
  else
    { state := putQ s .update_jobs (newRequest ph),
      enq := some .update_jobs, raised := false }

/-- `CommunicationManager.get_event_ranges` up to its return or the start
of its synchronous wait (communicationmanager.py lines 267-303): on stop,
return `None` at once (before the job check); with no job, raise
`CommunicationFailure`; otherwise enqueue on `request_get_events`. -/
def get_event_ranges_call (s : MState) (ph : Bool) (jobPresent : Bool) : CallOut :=
  if s.stop then { state := s, enq := none, raised := false }
  else if !jobPresent then { state := s, enq := none, raised := true }
  else
    { state := putQ s .request_get_events (newRequest ph),
      enq := some .request_get_events, raised := false }

/-- `CommunicationManager.update_events` up to its return or the start of
its synchronous wait (communicationmanager.py lines 315-335). -/
def update_events_call (s : MState) (ph : Bool) : CallOut :=
  if s.stop then { state := s, enq := none, raised := false }
  else
    { state := putQ s .update_events (newRequest ph),
      enq := some .update_events, raised := false }

/-- The manager's state right after `__init__`: all queues empty, stop
event unset. -/
def initState : MState :=
  { request_get_jobs := [], update_jobs := [], request_get_events := [],
    update_events := [], processing_get_jobs := [], processing_update_jobs := [],
    processing_get_events := [], processing_update_events := [], stop := false }

/-- An atomic step of the communication-manager system: a client operation,
the stop signal, or the dispatch loop handling one processor-table entry
(with arbitrary plugin pre-check and handler responses). -/
inductive MStep : MState → MState → Prop where
  | getJobs (s : MState) (ph : Bool) : MStep s (get_jobs_call s ph).state
  | updateJobs (s : MState) (ph : Bool) : MStep s (update_jobs_call s ph).state
  | getEvents (s : MState) (ph jp : Bool) : MStep s (get_event_ranges_call s ph jp).state
  | updateEvents (s : MState) (ph : Bool) : MStep s (update_events_call s ph).state
  | setStop (s : MState) : MStep s { s with stop := true }
  | dispatch (s : MState) (pre : Response) (handler : Request → Response)
      (e : ProcEntry) (he : e ∈ processorTable) :
      MStep s (processEntry pre handler s e).state

/-- The states the communication-manager system can reach from start-up. -/
inductive Reachable : MState → Prop where
  | init : Reachable initState
  | step {s t : MState} : Reachable s → MStep s t → Reachable t

/-! ## Concrete inputs used by the evaluation theorems -/

/-- A job record with neutral defaults. -/
def job0 : Job :=
  { pandaID := 0, state := "unknown", stageout := "all", inFiles := "", outFiles := "",
    scopeOut := "", scopeLog := "", logFile := "", logGUID := "", metaData := none,
    pilotErrorCodes := [], pilotErrorDiags := [], exitCode := none, transExitCode := none,
    fileinfodict := none }

/-- The full stage-out job of spec section 8, scenario 4: one output file
`o1.root` plus the log `log.tgz`, both named in `outFiles`. -/
def job4 : Job :=
  { job0 with
    pandaID := 202,
    outFiles := "o1.root,log.tgz",
    scopeOut := "s",
    scopeLog := "s",
    logFile := "log.tgz",
    logGUID := "G",
    metaData := some [("o1.root", "GO", (42 : Int))] }

/-- A transfer environment in which every upload succeeds and yields a
summary. -/
def envAll : StageOutEnv := fun _ => some { pfn := "srm://x", adler32 := "deadbeef" }

/-! ## Theorems about the data pipeline -/

/-- C1. The claim states that the job state is strictly monotonic: once
"finished" or "failed" no operation changes it. The code violates this
twice, at the inputs evaluated here: `set_pilot_state` guards only against
"failed" (contradicting its own docstring, which says it leaves both
"finished" and "failed" alone) and so rewrites a "finished" state; and the
log-only recovery stage-out run by the queue monitor on a job drained from
`failed_data_in` (whose state is "failed") rewrites the state to
"finished". -/
theorem c1_state_monotonicity_violated :
    (set_pilot_state (some { job0 with state := "finished" }) "running").1.map Job.state
        = some "running"
    ∧ (monitor_failed_data_in envAll 7 { job4 with state := "failed" }).1.state = "finished"
    ∧ (monitor_failed_data_in envAll 7 { job4 with state := "failed" }).2
        = JobRoute.failed_jobs := by
  refine ⟨?_, ?_, ?_⟩ <;> rfl

/-- C2. The claim states that `_stage_out_all` always invokes the runner
for the log descriptor. In the code, the log descriptor is keyed by the
string `scopeLog:logFile` in the outputs dictionary, and the loop skips any
key that is not a substring of `job['outFiles']`; for the spec's scenario-4
job the log name is listed in `outFiles`, yet the key "s:log.tgz" is not a
substring of it, so the log is silently skipped, no file info is recorded
for it, and stage-out still reports success. -/
theorem c2_log_upload_skipped :
    pyInStr "log.tgz" job4.outFiles = true
    ∧ pyInStr ("s" ++ ":" ++ "log.tgz") job4.outFiles = false
    ∧ (stage_out_all envAll 7 job4).attempts.map Descriptor.name = ["o1.root"]
    ∧ (stage_out_all envAll 7 job4).ok = true
    ∧ ((stage_out_all envAll 7 job4).job.fileinfodict.getD []).map Prod.fst
        = ["o1.root"] := by
  refine ⟨?_, ?_, ?_, ?_, ?_⟩ <;> rfl

/-- C5. The `finished_data_out` branch of the queue monitor routes a job to
`finished_jobs` exactly when its payload exit code (`exitCode`, defaulting
to 0 when absent) is 0 and its `transExitCode` is present and 0; otherwise
it routes the job to `failed_jobs`. -/
theorem c5_finished_data_out_classification (job : Job) :
    monitor_finished_data_out job = JobRoute.finished_jobs
      ↔ (job.exitCode.getD 0 = 0 ∧ job.transExitCode = some 0) := by
  unfold monitor_finished_data_out
  cases hte : job.transExitCode with
  | none => cases he : job.exitCode <;> simp
  | some t =>
    cases he : job.exitCode with
    | none => simp
    | some c =>
      by_cases ht : t = 0 <;> by_cases hc : c = 0 <;> simp [ht, hc]

/-- The `failed` flag computed by the stage-out loop: the initial flag
or-ed with the existence of a non-skipped descriptor whose transfer yields
no summary. -/
theorem stageOutLoop_failed_eq (env : StageOutEnv) (oF : String) :
    ∀ (l : List (String × Descriptor)) (fid : List (String × FileInfo)) (failed : Bool),
    (stageOutLoop env oF l fid failed).2.1
      = (failed || l.any fun p => pyInStr p.1 oF && (env p.2).isNone) := by
  intro l
  induction l with
  | nil => intro fid failed; simp [stageOutLoop]
  | cons p rest ih =>
    intro fid failed
    obtain ⟨k, d⟩ := p
    cases hk : pyInStr k oF with
    | false => simp [stageOutLoop, hk, ih]
    | true =>
      cases he : env d with
      | none => simp [stageOutLoop, hk, he, ih]
      | some s => simp [stageOutLoop, hk, he, ih]

/-- The descriptors the stage-out loop actually attempts: exactly the
entries whose key is a substring of `outFiles`, independent of any
failures. -/
theorem stageOutLoop_attempts_eq (env : StageOutEnv) (oF : String) :
    ∀ (l : List (String × Descriptor)) (fid : List (String × FileInfo)) (failed : Bool),
    (stageOutLoop env oF l fid failed).2.2
      = (l.filter fun p => pyInStr p.1 oF).map Prod.snd := by
  intro l
  induction l with
  | nil => intro fid failed; simp [stageOutLoop]
  | cons p rest ih =>
    intro fid failed
    obtain ⟨k, d⟩ := p
    cases hk : pyInStr k oF with
    | false => simp [stageOutLoop, hk, ih]
    | true =>
      cases he : env d with
      | none => simp [stageOutLoop, hk, he, ih]
      | some s => simp [stageOutLoop, hk, he, ih]

/-- C6. `_stage_out_all` is best-effort per pass but strict overall: it
attempts every non-skipped descriptor regardless of earlier failures; it
returns failure exactly when some attempted transfer yields no summary (a
missing summary being folded into the transfer environment's `none`); on
failure the job is tagged with `stage_out_failed` and state "failed"; on
success the state is "finished" and the accumulated file-info dictionary is
stored on the job. -/
theorem c6_stage_out_all_best_effort (env : StageOutEnv) (tarSize : Int) (job : Job) :
    ((stage_out_all env tarSize job).attempts
        = ((outputsOf job tarSize).filter fun p => pyInStr p.1 job.outFiles).map Prod.snd)
    ∧ ((stage_out_all env tarSize job).ok = false
        ↔ ((outputsOf job tarSize).any fun p => pyInStr p.1 job.outFiles && (env p.2).isNone)
            = true)
    ∧ ((stage_out_all env tarSize job).ok = false
        → (stage_out_all env tarSize job).job.state = "failed"
          ∧ (stage_out_all env tarSize job).job.pilotErrorCodes
              = job.pilotErrorCodes ++ [ErrCode.stage_out_failed])
    ∧ ((stage_out_all env tarSize job).ok = true
        → (stage_out_all env tarSize job).job.state = "finished"
          ∧ (stage_out_all env tarSize job).job.fileinfodict
              = some (stageOutLoop env job.outFiles (outputsOf job tarSize) [] false).1) := by
  have hfail := stageOutLoop_failed_eq env job.outFiles (outputsOf job tarSize) [] false
  have hatt := stageOutLoop_attempts_eq env job.outFiles (outputsOf job tarSize) [] false
  unfold stage_out_all
  cases hb : (stageOutLoop env job.outFiles (outputsOf job tarSize) [] false).2.1 with
  | false =>
    simp only [hb, Bool.false_eq_true, if_false]
    refine ⟨hatt, ?_, by simp, by simp⟩
    constructor
    · intro h; exact absurd h (by simp)
    · intro h
      rw [hb] at hfail
      simp [h] at hfail
  | true =>
    simp only [hb, if_true]
    refine ⟨hatt, ?_, by simp [add_error_code], by simp⟩
    constructor
    · intro _
      rw [hb] at hfail
      simpa using hfail.symm
    · intro _; trivial

/-- C7. `_call` returns success exactly when the child exited with code 0:
for any spawn outcome and supervision trace on which the loop completes,
the boolean result is `true` iff the observed exit code is 0, and a spawn
failure gives a non-success with no exit code observed. -/
theorem c7_call_success_iff_exit_zero (spawn : Option (List Tick)) (r : Bool × Option Int)
    (h : call spawn = some r) :
    (r.1 = true ↔ r.2 = some 0) ∧ (spawn = none → r.1 = false ∧ r.2 = none) := by
  cases spawn with
  | none =>
    simp [call] at h
    cases h
    simp
  | some ticks =>
    simp only [call, Option.map_eq_some'] at h
    obtain ⟨ec, hec, hr⟩ := h
    cases hr
    constructor
    · simp
    · intro hc; cases hc

/-- C7 witness: a trace on which the child exits with code 0. -/
theorem c7_call_witness :
    ((true : Bool) = true ↔ (some (0 : Int) : Option Int) = some 0)
    ∧ ((some [Tick.poll (some 0)] : Option (List Tick)) = none
        → (true : Bool) = false ∧ (some (0 : Int) : Option Int) = none) :=
  c7_call_success_iff_exit_zero (some [Tick.poll (some 0)]) (true, some 0) rfl

/-- C8. One iteration of the stage-in worker on a dequeued job: on transfer
success the job goes to `finished_data_in` unchanged; on transfer failure
the job goes to `failed_data_in` with state "failed" and the error kind
`stage_in_failed` in its (non-empty) error-code list, with a matching
message in its (non-empty) diagnostics list. -/
theorem c8_stage_in_routing (job : Job) :
    copytool_in_step true job = (job, DataInRoute.finished_data_in)
    ∧ (copytool_in_step false job).2 = DataInRoute.failed_data_in
    ∧ (copytool_in_step false job).1.state = "failed"
    ∧ ErrCode.stage_in_failed ∈ (copytool_in_step false job).1.pilotErrorCodes
    ∧ (copytool_in_step false job).1.pilotErrorCodes ≠ []
    ∧ (copytool_in_step false job).1.pilotErrorDiags ≠ [] := by
  simp [copytool_in_step, add_error_code]

/-! ## Invariants of the communication manager -/

/-- The inductive invariant of the manager's dispatch system: the two used
in-flight queues hold at most one request, and the two in-flight queues the
processor table never feeds stay empty. -/
def MInv (s : MState) : Prop :=
  s.processing_get_jobs.length ≤ 1 ∧ s.processing_get_events.length ≤ 1
  ∧ s.processing_update_jobs = [] ∧ s.processing_update_events = []

theorem inv_init : MInv initState := by
  refine ⟨?_, ?_, ?_, ?_⟩ <;> simp [initState]

theorem inv_dispatch (pre : Response) (handler : Request → Response) (s : MState)
    (e : ProcEntry) (he : e ∈ processorTable) (h : MInv s) :
    MInv (processEntry pre handler s e).state := by
  obtain ⟨h1, h2, h3, h4⟩ := h
  simp only [processorTable, List.mem_cons, List.not_mem_nil, or_false] at he
  unfold MInv processEntry
  rcases he with rfl | rfl | rfl | rfl | rfl | rfl <;> dsimp only <;>
    [skip; skip; skip; skip; skip; skip] <;>
  · split
    · refine ⟨?_, ?_, ?_, ?_⟩ <;> simp_all [setQ]
    · rename_i hstop
      split
      · rename_i hcan
        split
        · rename_i hpre
          split
          · exact ⟨h1, h2, h3, h4⟩
          · rename_i req rest hq
            split
            · refine ⟨?_, ?_, ?_, ?_⟩ <;>
                (simp_all [setQ, getQ]; try omega)
            · rename_i hfalse
              refine ⟨?_, ?_, ?_, ?_⟩ <;>
                (simp_all [setQ, putQ, getQ, can_process_request, queue_limit]; try omega)
        · exact ⟨h1, h2, h3, h4⟩
      · exact ⟨h1, h2, h3, h4⟩

theorem inv_client (s : MState) (ph jp : Bool) (h : MInv s) :
    MInv (get_jobs_call s ph).state ∧ MInv (update_jobs_call s ph).state
    ∧ MInv (get_event_ranges_call s ph jp).state ∧ MInv (update_events_call s ph).state := by
  obtain ⟨h1, h2, h3, h4⟩ := h
  refine ⟨?_, ?_, ?_, ?_⟩
  · unfold MInv get_jobs_call
    split <;> exact ⟨h1, h2, h3, h4⟩
  · unfold MInv update_jobs_call
    split <;> exact ⟨h1, h2, h3, h4⟩
  · unfold MInv get_event_ranges_call
    split
    · exact ⟨h1, h2, h3, h4⟩
    · split <;> exact ⟨h1, h2, h3, h4⟩
  · unfold MInv update_events_call
    split <;> exact ⟨h1, h2, h3, h4⟩

theorem inv_setStop (s : MState) (h : MInv s) : MInv { s with stop := true } := h

theorem reachable_inv (s : MState) (h : Reachable s) : MInv s := by
  induction h with
  | init => exact inv_init
  | step _ hstep ih =>
    cases hstep with
    | getJobs ph => exact (inv_client _ ph false ih).1
    | updateJobs ph => exact (inv_client _ ph false ih).2.1
    | getEvents ph jp => exact (inv_client _ ph jp ih).2.2.1
    | updateEvents ph => exact (inv_client _ ph false ih).2.2.2
    | setStop => exact inv_setStop _ ih
    | dispatch pre handler e he => exact inv_dispatch pre handler _ e he ih

/-- The state with the six processor-table source queues emptied. -/
def drainedState (s : MState) : MState :=
  { s with
    request_get_jobs := [],
    request_get_events := [],
    update_jobs := [],
    update_events := [],
    processing_get_jobs := [],
    processing_get_events := [] }

theorem runPass_stop (pre : ProcEntry → Response) (handler : ProcEntry → Request → Response)
    (s : MState) (hstop : s.stop = true) :
    runPass pre handler s =
      { state := drainedState s,
        hasReq := false,
        hooks := [],
        done := (s.request_get_jobs ++ s.request_get_events ++ s.update_jobs
                  ++ s.update_events ++ s.processing_get_jobs
                  ++ s.processing_get_events).map abortReq } := by
  simp [runPass, processorTable, processEntry, hstop, setQ, getQ, drainedState,
    List.foldl_cons, List.foldl_nil]

/-! ## Theorems about the communication manager -/

/-- C9. In every reachable state of the manager, the in-flight queues
`processing_get_jobs` and `processing_get_events` hold at most one request:
the dispatch loop moves a request into its entry's next queue only when
`can_process_request` saw that queue's size strictly below its configured
limit of 1. -/
theorem c9_processing_queues_bounded (s : MState) (h : Reachable s) :
    (getQ s QName.processing_get_jobs).length ≤ 1
    ∧ (getQ s QName.processing_get_events).length ≤ 1 := by
  have hi := reachable_inv s h
  exact ⟨hi.1, hi.2.1⟩

/-- C9 witness: the bound holds at the reachable start-up state. -/
theorem c9_bound_at_init :
    (getQ initState QName.processing_get_jobs).length ≤ 1
    ∧ (getQ initState QName.processing_get_events).length ≤ 1 :=
  c9_processing_queues_bounded initState Reachable.init

/-- C3. When the stop signal is set, a pass of the dispatch loop leaves
every manager queue empty, performs no request handling (`has_req` stays
false, so the loop exits right after the pass), and every previously queued
request — drained from all six processor-table queues — ends with
`abort = true` and a response carrying a `CommunicationFailure` attached,
so any synchronous waiter polling `req.response` is released. -/
theorem c3_stop_aborts_queued_requests (pre : ProcEntry → Response)
    (handler : ProcEntry → Request → Response) (s : MState)
    (hreach : Reachable s) (hstop : s.stop = true) :
    (∀ q : QName, getQ (runPass pre handler s).state q = [])
    ∧ (runPass pre handler s).hasReq = false
    ∧ (runPass pre handler s).done
        = (s.request_get_jobs ++ s.request_get_events ++ s.update_jobs ++ s.update_events
            ++ s.processing_get_jobs ++ s.processing_get_events).map abortReq
    ∧ ∀ r ∈ (runPass pre handler s).done,
        r.abort = true ∧ r.response = some commFailureResp := by
  have hi := reachable_inv s hreach
  rw [runPass_stop pre handler s hstop]
  refine ⟨?_, rfl, rfl, ?_⟩
  · intro q
    cases q <;> simp [getQ, drainedState, hi.2.2.1, hi.2.2.2]
  · intro r hr
    simp only [List.mem_map] at hr
    obtain ⟨x, _, rfl⟩ := hr
    exact ⟨rfl, rfl⟩

/-- Arbitrary plugin pre-check responses for the witness instances. -/
def preW : ProcEntry → Response := fun _ => { status := .int 0, content := none, exc := none }

/-- Arbitrary plugin handlers for the witness instances. -/
def handlerW : ProcEntry → Request → Response :=
  fun _ _ => { status := .int 0, content := none, exc := none }

/-- A reachable stopped state with one queued request: start-up, a
`get_jobs` call with no post hook, then the stop signal. -/
def stoppedState : MState := { (get_jobs_call initState false).state with stop := true }

theorem stoppedState_reachable : Reachable stoppedState :=
  Reachable.step (Reachable.step Reachable.init (MStep.getJobs initState false))
    (MStep.setStop (get_jobs_call initState false).state)

/-- C3 witness: a stop pass on a reachable stopped state holding one queued
`get_jobs` request aborts it and releases its waiter. -/
theorem c3_stop_abort_instance :
    (∀ q : QName, getQ (runPass preW handlerW stoppedState).state q = [])
    ∧ (runPass preW handlerW stoppedState).hasReq = false
    ∧ (runPass preW handlerW stoppedState).done
        = (stoppedState.request_get_jobs ++ stoppedState.request_get_events
            ++ stoppedState.update_jobs ++ stoppedState.update_events
            ++ stoppedState.processing_get_jobs
            ++ stoppedState.processing_get_events).map abortReq
    ∧ ∀ r ∈ (runPass preW handlerW stoppedState).done,
        r.abort = true ∧ r.response = some commFailureResp :=
  c3_stop_aborts_queued_requests preW handlerW stoppedState stoppedState_reachable rfl

/-- C10. A public manager operation called while the stop signal is set
returns `None` immediately: the state is unchanged, no request is
constructed or enqueued, and nothing is raised (in particular no
`communication_failure` response is produced and no post hook can ever be
invoked for the call). -/
theorem c10_stopped_calls_noop (s : MState) (ph jp : Bool) (hstop : s.stop = true) :
    get_jobs_call s ph = { state := s, enq := none, raised := false }
    ∧ update_jobs_call s ph = { state := s, enq := none, raised := false }
    ∧ get_event_ranges_call s ph jp = { state := s, enq := none, raised := false }
    ∧ update_events_call s ph = { state := s, enq := none, raised := false } := by
  refine ⟨?_, ?_, ?_, ?_⟩ <;>
    simp [get_jobs_call, update_jobs_call, get_event_ranges_call, update_events_call, hstop]

/-- The manager's state right after start-up with the stop signal already
set. -/
def sStop : MState := { initState with stop := true }

/-- C10 witness: the four operations at a concrete stopped state. -/
theorem c10_stopped_call_instance :
    get_jobs_call sStop false = { state := sStop, enq := none, raised := false }
    ∧ update_jobs_call sStop false = { state := sStop, enq := none, raised := false }
    ∧ get_event_ranges_call sStop false false = { state := sStop, enq := none, raised := false }
    ∧ update_events_call sStop false = { state := sStop, enq := none, raised := false } :=
  c10_stopped_calls_noop sStop false false rfl

/-- A request carrying a post hook. -/
def reqPH : Request := { post_hook := true, response := none, abort := false }

/-- The `update_jobs` processor-table entry (post-hook bit set, no next
queue). -/
def entryUJ : ProcEntry := { src := .update_jobs, next_queue := none, process_req_post_hook := true }

/-- A state holding exactly one `update_jobs` request, not stopped. -/
def s4 : MState := { initState with update_jobs := [reqPH] }

/-- A passing pre-check response (status 0). -/
def preOK : Response := { status := .int 0, content := none, exc := none }

/-- A handler returning a response whose status is the Python `False`. -/
def handlerF : Request → Response :=
  fun _ => { status := .bool false, content := none, exc := none }

/-- A handler returning a response whose status is the Python `True`. -/
def handlerT : Request → Response :=
  fun _ => { status := .bool true, content := none, exc := none }

/-- C4 counterexample. The claim states that for an entry with the
`process_req_post_hook` bit set and a request carrying a post hook, the
hook is invoked with the handler's response for both outcomes of step c/d,
including when the response status is false. At this concrete dispatch —
the `update_jobs` entry, a hooked request, a passing pre-check, a handler
answering with status `False` — the request is dequeued and handled and
all the claim's premises hold, yet no hook is invoked. -/
theorem c4_no_hook_on_false_status :
    entryUJ ∈ processorTable
    ∧ entryUJ.process_req_post_hook = true
    ∧ reqPH.post_hook = true
    ∧ s4.stop = false
    ∧ can_process_request s4 entryUJ = true
    ∧ pyEqZero preOK.status = true
    ∧ getQ s4 entryUJ.src = [reqPH]
    ∧ pyIsFalse (handlerF reqPH).status = true
    ∧ (processEntry preOK handlerF s4 entryUJ).hasReq = true
    ∧ (processEntry preOK handlerF s4 entryUJ).done
        = [{ reqPH with response := some (handlerF reqPH) }]
    ∧ (processEntry preOK handlerF s4 entryUJ).hooks = [] := by
  refine ⟨?_, rfl, rfl, rfl, rfl, rfl, rfl, rfl, rfl, rfl, rfl⟩
  simp [processorTable, entryUJ]

/-- C4 amended. When the dispatch loop dequeues and handles a request, the
post hook is invoked with the handler's response exactly when that
response's status is not the Python `False` and both the entry's
`process_req_post_hook` bit and the request's hook are present; in the
terminal failure case (status `False`) the hook is not invoked. -/
theorem c4_hook_iff_status_not_false (pre : Response) (handler : Request → Response)
    (s : MState) (e : ProcEntry) (req : Request) (rest : List Request)
    (hstop : s.stop = false) (hq : getQ s e.src = req :: rest)
    (hcan : can_process_request s e = true) (hpre : pyEqZero pre.status = true) :
    (processEntry pre handler s e).hooks
      = if pyIsFalse (handler req).status then []
        else if e.process_req_post_hook && req.post_hook then [handler req] else [] := by
  unfold processEntry
  rw [hstop]
  simp only [Bool.false_eq_true, if_false, hcan, if_true, hpre, hq]
  by_cases hf : pyIsFalse (handler req).status = true
  · simp [hf]
  · simp only [Bool.not_eq_true] at hf
    simp only [hf, Bool.false_eq_true, if_false]
    cases e.next_queue <;> simp

/-- C4 witness: a handled `update_jobs` request with a hook and a
non-`False` handler status. -/
theorem c4_hook_witness :
    (processEntry preOK handlerT s4 entryUJ).hooks
      = if pyIsFalse (handlerT reqPH).status then []
        else if entryUJ.process_req_post_hook && reqPH.post_hook then [handlerT reqPH]
        else [] :=
  c4_hook_iff_status_not_false preOK handlerT s4 entryUJ reqPH [] rfl rfl rfl rfl

end Pilot
